import Mathlib

/-!
Shallow embedding of the CampusConnect backend (Flask + SQLAlchemy) in Lean 4.

The model follows the source files:
  backend/app/models/auth_models.py   (User, UserSession, OTPCode, Event rows)
  backend/app/services/auth_service.py (AuthService class methods)
  backend/app/services/event_service.py (EventService.join_event)
  backend/app/utils/helpers.py         (response envelope helpers)
  backend/app/routes/auth.py           (logout route)

Conventions of the embedding:
  * `datetime.utcnow()` is passed in explicitly as a natural number `now`
    (minutes); `timedelta(minutes=10)` is `+ 10`, `timedelta(days=30)` is
    `+ 43200`.
  * Each SQLAlchemy table is a `List` of row structures inside `DB`; a
    `query(...).filter(...).first()` is `List.find?` with the translated
    predicate, and an ORM mutation of the row returned by `.first()` is
    `updateFirst` at the same predicate.  `db.commit()` is modelled by
    returning the updated `DB`; the `get_db` context manager commits on
    normal exit of the `with` block (database.py lines 129-150), so an
    early `return` inside the block also persists prior `db.add` calls.
  * Random values (`_generate_otp`, `_generate_session_token`) and the
    external password-hash functions of werkzeug are parameters.
  * Python strings used as emails are sequences of Unicode code points
    (`List Nat`); `str.lower()` is ASCII lowering, which is all that
    matters on the `A..Z` range the repository compares on.
  * The outcome of the external SMTP dispatch (`EmailService.send_otp_email`)
    is a Boolean parameter `email_ok` of the operations that invoke it.
-/

namespace CampusConnect

/-- A Python string viewed as its sequence of Unicode code points
(used for emails, where `.lower()` matters). -/
abbrev Email := List Nat

/-- `str.lower()` on one code point: `A`..`Z` (65..90) map 32 up, the rest
is unchanged. -/
def lowerCh (n : Nat) : Nat := if 65 ≤ n ∧ n ≤ 90 then n + 32 else n

/-- `email.lower()`. -/
def lowerEmail (e : Email) : Email := e.map lowerCh

/-- Code points of a Lean string literal (to write concrete emails). -/
def strCodes (s : String) : List Nat := s.data.map Char.toNat

/-- The single-quote character, used inside messages built with f-strings. -/
def sq : String := String.singleton (Char.ofNat 39)

/-- Row of the `users` table (auth_models.py lines 52-128).  Structure
defaults mirror the column defaults. -/
structure User where
  id : Nat
  email : Email
  password_hash : String := ""
  first_name : String := ""
  last_name : String := ""
  full_name : String := ""
  phone : Option String := none
  major : String := ""
  year_of_study : String := ""
  user_role : String := "student"
  bio_text : Option String := none
  profile_picture_url : Option String := none
  is_active : Bool := true
  is_verified : Bool := false
  last_login : Option Nat := none
  deriving Repr, DecidableEq

/-- Row of the `otp_codes` table (auth_models.py lines 163-199). -/
structure OTPCode where
  user_id : Nat
  code : String
  purpose : String
  expires_at : Nat
  is_used : Bool := false
  attempts : Nat := 0
  max_attempts : Nat := 3
  created_at : Nat := 0
  used_at : Option Nat := none
  deriving Repr, DecidableEq

/-- Row of the `user_sessions` table (auth_models.py lines 131-160). -/
structure UserSession where
  user_id : Nat
  session_token : String
  expires_at : Nat
  is_active : Bool := true
  last_used : Nat := 0
  deriving Repr, DecidableEq

/-- Row of the `events` table together with its `user_events` association
rows (auth_models.py lines 202-243); `attendees` holds user ids. -/
structure Event where
  id : Nat
  title : String
  max_attendees : Nat
  is_active : Bool := true
  attendees : List Nat := []
  deriving Repr, DecidableEq

/-- The relational store. -/
structure DB where
  users : List User := []
  otps : List OTPCode := []
  sessions : List UserSession := []
  events : List Event := []
  deriving Repr, DecidableEq

/-- `OTPCode.is_expired` (auth_models.py 184-186):
`datetime.utcnow() > self.expires_at`. -/
def OTPCode.is_expired (o : OTPCode) (now : Nat) : Bool := decide (o.expires_at < now)

/-- `OTPCode.is_valid` (auth_models.py 188-190):
`not expired and not used and attempts < max_attempts`. -/
def OTPCode.is_valid (o : OTPCode) (now : Nat) : Bool :=
  !o.is_expired now && !o.is_used && decide (o.attempts < o.max_attempts)

/-- `OTPCode.increment_attempts` (auth_models.py 192-194).  Defined in the
model layer of the source; no service operation calls it. -/
def OTPCode.increment_attempts (o : OTPCode) : OTPCode := { o with attempts := o.attempts + 1 }

/-- `OTPCode.mark_as_used` (auth_models.py 196-199). -/
def OTPCode.mark_as_used (o : OTPCode) (now : Nat) : OTPCode :=
  { o with is_used := true, used_at := some now }

/-- `UserSession.is_expired` (auth_models.py 153-155). -/
def UserSession.is_expired (s : UserSession) (now : Nat) : Bool := decide (s.expires_at < now)

/-- `Event.attendee_count` (auth_models.py 235-238). -/
def Event.attendee_count (ev : Event) : Nat := ev.attendees.length

/-- `Event.available_spots` (auth_models.py 240-243); `Nat` subtraction
realises the `max(0, ...)`. -/
def Event.available_spots (ev : Event) : Nat := ev.max_attendees - ev.attendee_count

/-- Replace the first element satisfying `p` (the row `.first()` returned
and then mutated through the ORM). -/
def updateFirst (p : α → Bool) (f : α → α) : List α → List α
  | [] => []
  | x :: xs => if p x then f x :: xs else x :: updateFirst p f xs

/-- Filter of every account lookup:
`User.email == email.lower()` (auth_service.py, e.g. line 432). -/
def user_query (email : Email) (u : User) : Bool := u.email == lowerEmail email

/-- Filter of the OTP lookups (auth_service.py lines 440-444 and 513-517):
user id, presented code value, and purpose tag. -/
def otp_query (uid : Nat) (code purpose : String) (o : OTPCode) : Bool :=
  o.user_id == uid && o.code == code && o.purpose == purpose

/-- Filter of the session lookup (auth_service.py lines 657-660). -/
def session_query (token : String) (s : UserSession) : Bool :=
  s.session_token == token && s.is_active

/-- `timedelta(minutes=10)` used for every OTP expiry. -/
def otp_expiry_minutes : Nat := 10

/-- `timedelta(days=30)` used for every session expiry, in minutes. -/
def session_minutes : Nat := 43200

/-- Result dictionary of the authentication operations. -/
structure AuthResult where
  success : Bool
  message : String
  user_data : Option User := none
  session_token : Option String := none
  deriving Repr, DecidableEq

/-- `AuthService.authenticate_with_otp` (auth_service.py lines 417-488).
`new_token` stands for `_generate_session_token()`. -/
def authenticate_with_otp (db : DB) (email : Email) (otp_code : String) (now : Nat)
    (new_token : String) : AuthResult × DB :=
  match db.users.find? (user_query email) with
  | none => ({ success := false, message := "User not found" }, db)
  | some user =>
    match db.otps.find? (otp_query user.id otp_code "authentication") with
    | none => ({ success := false, message := "Invalid authentication code" }, db)
    | some otp =>
      if otp.is_valid now = false then
        ({ success := false, message := "Authentication code has expired or been used" }, db)
      else
        ({ success := true, message := "Login successful",
           user_data := some { user with last_login := some now },
           session_token := some new_token },
         { db with
            otps := updateFirst (otp_query user.id otp_code "authentication")
              (fun o => o.mark_as_used now) db.otps,
            users := updateFirst (user_query email)
              (fun u => { u with last_login := some now }) db.users,
            sessions := db.sessions ++
              [{ user_id := user.id, session_token := new_token,
                 expires_at := now + session_minutes, last_used := now }] })

/-- `AuthService.verify_signup_otp` (auth_service.py lines 490-562). -/
def verify_signup_otp (db : DB) (email : Email) (otp_code : String) (now : Nat)
    (new_token : String) : AuthResult × DB :=
  match db.users.find? (user_query email) with
  | none => ({ success := false, message := "User not found" }, db)
  | some user =>
    match db.otps.find? (otp_query user.id otp_code "signup") with
    | none => ({ success := false, message := "Invalid verification code" }, db)
    | some otp =>
      if otp.is_valid now = false then
        ({ success := false, message := "Verification code has expired or been used" }, db)
      else
        ({ success := true, message := "Account verified successfully",
           user_data := some { user with is_verified := true, last_login := some now },
           session_token := some new_token },
         { db with
            otps := updateFirst (otp_query user.id otp_code "signup")
              (fun o => o.mark_as_used now) db.otps,
            users := updateFirst (user_query email)
              (fun u => { u with is_verified := true, last_login := some now }) db.users,
            sessions := db.sessions ++
              [{ user_id := user.id, session_token := new_token,
                 expires_at := now + session_minutes, last_used := now }] })

/-- `AuthService.authenticate_with_password` (auth_service.py lines 352-415).
`check_password` stands for werkzeug's `check_password_hash`
(auth_models.py 102-104), taking the stored hash and the presented
password. -/
def authenticate_with_password (check_password : String → String → Bool) (db : DB)
    (email : Email) (password : String) (now : Nat) (new_token : String) : AuthResult × DB :=
  match db.users.find? (user_query email) with
  | none => ({ success := false, message := "Invalid email or password" }, db)
  | some user =>
    if user.is_verified = false then
      ({ success := false, message := "Please verify your email before logging in" }, db)
    else if check_password user.password_hash password = false then
      ({ success := false, message := "Invalid email or password" }, db)
    else
      ({ success := true, message := "Login successful",
         user_data := some { user with last_login := some now },
         session_token := some new_token },
       { db with
          users := updateFirst (user_query email)
            (fun u => { u with last_login := some now }) db.users,
          sessions := db.sessions ++
            [{ user_id := user.id, session_token := new_token,
               expires_at := now + session_minutes, last_used := now }] })

/-- Result dictionary of `verify_session`: `{'valid': ..., 'message': ...}`
on failure, `{'valid': True, 'user_data': ..., ...}` on success. -/
structure SessionResult where
  valid : Bool
  message : Option String := none
  user_data : Option User := none
  deriving Repr, DecidableEq

/-- `AuthService.verify_session` (auth_service.py lines 643-693).  The user
lookup models the `session.user` relationship access after the commit of
`last_used`; a dangling foreign key raises and is answered by the outer
`except` with the generic failure. -/
def verify_session (db : DB) (session_token : String) (now : Nat) : SessionResult × DB :=
  match db.sessions.find? (session_query session_token) with
  | none => ({ valid := false, message := some "Invalid session token" }, db)
  | some s =>
    if s.is_expired now then
      let deactivated :=
        updateFirst (session_query session_token) (fun t => { t with is_active := false }) db.sessions
      ({ valid := false, message := some "Session expired" }, { db with sessions := deactivated })
    else
      let touched :=
        updateFirst (session_query session_token) (fun t => { t with last_used := now }) db.sessions
      let db1 := { db with sessions := touched }
      match db.users.find? (fun u => u.id == s.user_id) with
      | none => ({ valid := false, message := some "Session verification failed" }, db1)
      | some u => ({ valid := true, user_data := some u }, db1)

/-- Result dictionary of the OTP issuance operations. -/
structure SendResult where
  success : Bool
  message : String
  expiry_minutes : Option Nat := none
  deriving Repr, DecidableEq

/-- `AuthService.send_authentication_otp` (auth_service.py lines 236-292).
`new_code` stands for `_generate_otp()`; `email_ok` is the outcome of the
SMTP dispatch, whose failure is caught and only logged (lines 269-277),
so the result does not depend on it. -/
def send_authentication_otp (db : DB) (email : Email) (now : Nat) (new_code : String)
    (email_ok : Bool) : SendResult × DB :=
  match db.users.find? (user_query email) with
  | none => ({ success := false, message := "User not found" }, db)
  | some user =>
    let _ := email_ok
    ({ success := true, message := "Authentication code sent to your email",
       expiry_minutes := some otp_expiry_minutes },
     { db with otps := db.otps ++
        [{ user_id := user.id, code := new_code, purpose := "authentication",
           expires_at := now + otp_expiry_minutes, created_at := now }] })

/-- `AuthService.send_password_reset_otp` (auth_service.py lines 294-350).
Email dispatch failure is caught and only logged (lines 327-335). -/
def send_password_reset_otp (db : DB) (email : Email) (now : Nat) (new_code : String)
    (email_ok : Bool) : SendResult × DB :=
  match db.users.find? (user_query email) with
  | none => ({ success := false, message := "User not found" }, db)
  | some user =>
    let _ := email_ok
    ({ success := true, message := "Password reset code sent to your email",
       expiry_minutes := some otp_expiry_minutes },
     { db with otps := db.otps ++
        [{ user_id := user.id, code := new_code, purpose := "password_reset",
           expires_at := now + otp_expiry_minutes, created_at := now }] })

/-- `AuthService.send_login_otp` (auth_service.py lines 809-874).  Unlike
the two operations above, a dispatch failure is answered with an early
failure `return` (lines 854-859); the `get_db` context manager still
commits the row added on line 844 when the `with` block exits normally.
In the source the dispatch in fact always raises, because the call on
lines 848-853 passes keyword arguments (`email=`, `user_name=`,
`otp_code=`) that `EmailService.send_otp_email(to_email, recipient_name,
otp, purpose)` does not accept. -/
def send_login_otp (db : DB) (email : Email) (now : Nat) (new_code : String)
    (email_ok : Bool) : SendResult × DB :=
  match db.users.find? (user_query email) with
  | none => ({ success := false, message := "No account found with this email" }, db)
  | some user =>
    if user.is_active = false then
      ({ success := false, message := "Account is deactivated" }, db)
    else
      let db1 := { db with otps := db.otps ++
        [{ user_id := user.id, code := new_code, purpose := "login",
           expires_at := now + otp_expiry_minutes, created_at := now }] }
      if email_ok then
        ({ success := true, message := "Verification code sent to your email" }, db1)
      else
        ({ success := false, message := "Failed to send verification code" }, db1)

/-- `AuthService.ALLOWED_EMAIL_DOMAINS` (auth_service.py lines 24-29). -/
def allowed_email_domains : List Email :=
  [strCodes "student.university.edu", strCodes "university.edu",
   strCodes "campus.edu", strCodes "college.edu"]

/-- The joined domain list interpolated into the rejection message. -/
def allowed_domains_joined : String :=
  "student.university.edu, university.edu, campus.edu, college.edu"

/-- `email.split('@')[1]`: the segment between the first `@` (code point
64) and the following `@` or the end; `none` when the email has no `@`
(in Python, an `IndexError`). -/
def pySplitAt1 (e : Email) : Option Email :=
  match e.dropWhile (fun c => c != 64) with
  | [] => none
  | _ :: rest => some (rest.takeWhile (fun c => c != 64))

/-- `AuthService._is_allowed_email_domain` (auth_service.py lines 36-40):
`email.split('@')[1].lower() in ALLOWED_EMAIL_DOMAINS`; `none` models the
`IndexError` escaping when the email has no `@`. -/
def is_allowed_email_domain (e : Email) : Option Bool :=
  (pySplitAt1 e).map (fun dom => decide (lowerEmail dom ∈ allowed_email_domains))

/-- `x.strip() or None` applied to optional form fields. -/
def stripOrNone (s : String) : Option String :=
  if s.trim = "" then none else some s.trim

/-- The validated fields of `complete_signup`'s `signup_data` dictionary
(routes/auth.py `CompleteSignupRequest`, service lines 95-234). -/
structure SignupData where
  email : Email
  password : String
  first_name : String
  last_name : String
  phone : String := ""
  major : String := ""
  year_of_study : String := ""
  user_role : String := "student"
  bio_text : String := ""
  deriving Repr, DecidableEq

/-- Result dictionary of `complete_signup`. -/
structure SignupResult where
  success : Bool
  message : String
  user_id : Option Nat := none
  email : Option Email := none
  otp_code : Option String := none
  details : Option String := none
  deriving Repr, DecidableEq

/-- `AuthService.complete_signup` (auth_service.py lines 94-234).
`hash` stands for werkzeug's `generate_password_hash`; `new_user_id` for
the generated UUID primary key; `new_otp` for `_generate_otp()`;
`profile_picture` is `none` when no file was sent, `some none` when
`_save_profile_picture` failed (failure only logged, line 185), and
`some (some url)` when it succeeded.  Email dispatch failures are caught
and only logged (lines 131-139 and 198-207).  An email without `@` makes
`_is_allowed_email_domain` raise `IndexError`, answered by the outer
`except` (lines 219-234) with the generic failure envelope. -/
def complete_signup (hash : String → String) (db : DB) (d : SignupData)
    (profile_picture : Option (Option String)) (now : Nat) (new_user_id : Nat)
    (new_otp : String) (email_ok : Bool) : SignupResult × DB :=
  match is_allowed_email_domain d.email with
  | none =>
    ({ success := false, message := "Account creation failed. Please try again.",
       details := some "list index out of range" }, db)
  | some ok =>
    if ok = false then
      ({ success := false,
         message := "Email must be from an approved campus domain: " ++ allowed_domains_joined },
       db)
    else
      match db.users.find? (user_query d.email) with
      | some existing_user =>
        if existing_user.is_verified = false then
          let _ := email_ok
          ({ success := true, message := "Verification code sent to your email.",
             user_id := some existing_user.id, email := some existing_user.email,
             otp_code := some new_otp },
           { db with otps := db.otps ++
              [{ user_id := existing_user.id, code := new_otp, purpose := "signup",
                 expires_at := now + otp_expiry_minutes, created_at := now }] })
        else
          ({ success := false,
             message := "An account with this email already exists and is verified. Please login instead." },
           db)
      | none =>
        let user : User :=
          { id := new_user_id, email := lowerEmail d.email,
            password_hash := hash d.password,
            first_name := d.first_name.trim, last_name := d.last_name.trim,
            full_name := (d.first_name.trim ++ " " ++ d.last_name.trim).trim,
            phone := stripOrNone d.phone, major := d.major.trim,
            year_of_study := d.year_of_study, user_role := d.user_role,
            bio_text := stripOrNone d.bio_text,
            profile_picture_url := match profile_picture with
              | some (some url) => some url
              | _ => none }
        let _ := email_ok
        ({ success := true,
           message := "Account created successfully. Please check your email for verification code.",
           user_id := some new_user_id, email := some user.email },
         { db with
            users := db.users ++ [user],
            otps := db.otps ++
              [{ user_id := new_user_id, code := new_otp, purpose := "signup",
                 expires_at := now + otp_expiry_minutes, created_at := now }] })

/-- Result dictionary of `EventService.join_event`. -/
structure JoinResult where
  success : Bool
  message : String
  attendee_count : Option Nat := none
  deriving Repr, DecidableEq

/-- `EventService.join_event` (event_service.py lines 67-134). -/
def join_event (db : DB) (event_id : Nat) (uid : Nat) : JoinResult × DB :=
  match db.events.find? (fun ev => ev.id == event_id && ev.is_active) with
  | none => ({ success := false, message := "Event not found" }, db)
  | some event =>
    match db.users.find? (fun u => u.id == uid) with
    | none => ({ success := false, message := "User not found" }, db)
    | some user =>
      if event.attendees.contains user.id then
        ({ success := false, message := "You are already registered for this event" }, db)
      else if decide (event.max_attendees ≤ event.attendee_count) then
        ({ success := false, message := "Event is full" }, db)
      else
        let joined := { event with attendees := event.attendees ++ [user.id] }
        let events1 :=
          updateFirst (fun ev => ev.id == event_id && ev.is_active)
            (fun ev => { ev with attendees := ev.attendees ++ [user.id] }) db.events
        ({ success := true,
           message := "Successfully joined " ++ sq ++ event.title ++ sq,
           attendee_count := some joined.attendee_count },
         { db with events := events1 })

/-- The JSON envelope of the route layer (`helpers.py`), together with the
HTTP status code it is returned with; `details` is the optional
dictionary of extra fields. -/
structure HttpResponse where
  status : Nat
  success : Bool
  message : String
  error : Option String := none
  details : Option (List (String × String)) := none
  deriving Repr, DecidableEq

/-- `create_internal_error_response` (helpers.py lines 108-127): a 500
`INTERNAL_ERROR` envelope whose `details` dictionary carries the
`error_message` argument.  The guard `if error_message:` on line 119 is
Python truthiness, so both `None` and the empty string produce no
details dictionary. -/
def create_internal_error_response (error_message : Option String) : HttpResponse :=
  { status := 500, success := false,
    message := "An internal server error occurred",
    error := some "INTERNAL_ERROR",
    details := match error_message with
      | some m => if m = "" then none else some [("error", m)]
      | none => none }

/-- The methods the source defines on `AuthService`
(auth_service.py lines 20-874, in order). -/
def auth_service_methods : List String :=
  ["_is_allowed_email_domain", "_generate_otp", "_generate_session_token",
   "_allowed_file", "_save_profile_picture", "complete_signup",
   "send_authentication_otp", "send_password_reset_otp",
   "authenticate_with_password", "authenticate_with_otp", "verify_signup_otp",
   "authenticate_user", "verify_session", "update_profile",
   "upload_profile_picture", "send_login_otp"]

/-- The message of the `AttributeError` raised when the logout route looks
up `AuthService.logout_user`, an attribute no source file defines. -/
def logout_user_error : String :=
  "type object " ++ sq ++ "AuthService" ++ sq ++ " has no attribute " ++ sq ++ "logout_user" ++ sq

/-- The `/auth/logout` route handler (routes/auth.py lines 306-339) after
request validation: it calls `AuthService.logout_user(...)` (line 329),
but `logout_user` is not among `auth_service_methods`, so the attribute
lookup raises `AttributeError`, which the handler's outer `except`
(lines 338-339) answers with `create_internal_error_response(str(e))`.
No session row is read or written. -/
def logout_route (db : DB) (session_token : String) : HttpResponse × DB :=
  let _ := session_token
  (create_internal_error_response (some logout_user_error), db)

/-! ## Helper lemmas -/

theorem lowerCh_idem (n : Nat) : lowerCh (lowerCh n) = lowerCh n := by
  unfold lowerCh
  split
  · split
    · omega
    · rfl
  · rfl

theorem lowerEmail_idem (e : Email) : lowerEmail (lowerEmail e) = lowerEmail e := by
  unfold lowerEmail
  rw [List.map_map]
  apply List.map_congr_left
  intro a _
  exact lowerCh_idem a

theorem user_query_lower (e : Email) : user_query (lowerEmail e) = user_query e := by
  funext u
  unfold user_query
  rw [lowerEmail_idem]

theorem updateFirst_map {α β : Type} (p : α → Bool) (f : α → α) (g : α → β)
    (h : ∀ a, g (f a) = g a) : ∀ l : List α, (updateFirst p f l).map g = l.map g := by
  intro l
  induction l with
  | nil => rfl
  | cons x xs ih =>
    unfold updateFirst
    by_cases hp : p x = true
    · simp [hp, h x]
    · simp only [Bool.not_eq_true] at hp
      simp [hp, ih]

theorem find?_updateFirst {α : Type} (p : α → Bool) (f : α → α)
    (h : ∀ a, p (f a) = p a) : ∀ l : List α,
    (updateFirst p f l).find? p = (l.find? p).map f := by
  intro l
  induction l with
  | nil => rfl
  | cons x xs ih =>
    unfold updateFirst
    by_cases hp : p x = true
    · simp [List.find?_cons, hp, h x]
    · simp only [Bool.not_eq_true] at hp
      simp [List.find?_cons, hp, ih]

theorem updateFirst_eq_set {α : Type} (p : α → Bool) (f : α → α) :
    ∀ (l : List α) (a : α), l.find? p = some a →
    ∃ n, l.get? n = some a ∧ updateFirst p f l = l.set n (f a) := by
  intro l
  induction l with
  | nil => intro a ha; simp [List.find?] at ha
  | cons x xs ih =>
    intro a ha
    by_cases hp : p x = true
    · rw [List.find?_cons_of_pos _ hp] at ha
      injection ha with ha
      subst ha
      exact ⟨0, rfl, by simp [updateFirst, hp]⟩
    · simp only [Bool.not_eq_true] at hp
      rw [List.find?_cons_of_neg _ (by simp [hp])] at ha
      obtain ⟨n, hget, hupd⟩ := ih a ha
      exact ⟨n + 1, by simpa using hget, by simp [updateFirst, hp, hupd]⟩

theorem lowerCh_ne64 (c : Nat) : (lowerCh c != 64) = (c != 64) := by
  unfold lowerCh
  split
  · next h => simp [bne]; omega
  · rfl

theorem dropWhile_ne64_lower (e : Email) :
    (e.map lowerCh).dropWhile (fun c => c != 64) =
      (e.dropWhile (fun c => c != 64)).map lowerCh := by
  induction e with
  | nil => rfl
  | cons c cs ih =>
    simp only [List.map_cons, List.dropWhile_cons, lowerCh_ne64]
    by_cases hc : (c != 64) = true
    · simp [hc, ih]
    · simp only [Bool.not_eq_true] at hc
      simp [hc]

theorem takeWhile_ne64_lower (e : Email) :
    (e.map lowerCh).takeWhile (fun c => c != 64) =
      (e.takeWhile (fun c => c != 64)).map lowerCh := by
  induction e with
  | nil => rfl
  | cons c cs ih =>
    simp only [List.map_cons, List.takeWhile_cons, lowerCh_ne64]
    by_cases hc : (c != 64) = true
    · simp [hc, ih]
    · simp only [Bool.not_eq_true] at hc
      simp [hc]

theorem pySplitAt1_lower (e : Email) :
    pySplitAt1 (lowerEmail e) = (pySplitAt1 e).map lowerEmail := by
  unfold pySplitAt1 lowerEmail
  rw [dropWhile_ne64_lower]
  cases e.dropWhile (fun c => c != 64) with
  | nil => rfl
  | cons c cs => simp [takeWhile_ne64_lower]

theorem is_allowed_email_domain_lower (e : Email) :
    is_allowed_email_domain (lowerEmail e) = is_allowed_email_domain e := by
  unfold is_allowed_email_domain
  rw [pySplitAt1_lower]
  cases pySplitAt1 e with
  | none => rfl
  | some dom => simp [lowerEmail_idem]

/-! ## Concrete records used by witnesses and counterexamples -/

def ex_email : Email := strCodes "alice@campus.edu"

def bob_email : Email := strCodes "bob@campus.edu"

def ex_user : User := { id := 1, email := ex_email, password_hash := "pw", is_verified := true }

def ex_otp : OTPCode := { user_id := 1, code := "123456", purpose := "authentication", expires_at := 100 }

def ex_db : DB := { users := [ex_user], otps := [ex_otp] }

def ex_otp_old : OTPCode :=
  { user_id := 1, code := "111111", purpose := "authentication", expires_at := 100, created_at := 0 }

def ex_otp_new : OTPCode :=
  { user_id := 1, code := "222222", purpose := "authentication", expires_at := 100, created_at := 5 }

def ex_db2 : DB := { users := [ex_user], otps := [ex_otp_old, ex_otp_new] }

def ex_otp_expired : OTPCode :=
  { user_id := 1, code := "123456", purpose := "authentication", expires_at := 5 }

def ex_db5 : DB := { users := [ex_user], otps := [ex_otp_expired] }

/-! ## Lowercasing lemmas for the individual operations -/

theorem complete_signup_lower (hash : String → String) (db : DB) (d : SignupData)
    (pic : Option (Option String)) (now uid : Nat) (otp : String) (ok : Bool) :
    complete_signup hash db { d with email := lowerEmail d.email } pic now uid otp ok =
      complete_signup hash db d pic now uid otp ok := by
  unfold complete_signup
  simp only [is_allowed_email_domain_lower, user_query_lower, lowerEmail_idem]

theorem authenticate_with_password_lower (check : String → String → Bool) (db : DB)
    (e : Email) (p : String) (now : Nat) (tok : String) :
    authenticate_with_password check db (lowerEmail e) p now tok =
      authenticate_with_password check db e p now tok := by
  unfold authenticate_with_password
  rw [user_query_lower]

theorem authenticate_with_otp_lower (db : DB) (e : Email) (c : String) (now : Nat)
    (tok : String) :
    authenticate_with_otp db (lowerEmail e) c now tok = authenticate_with_otp db e c now tok := by
  unfold authenticate_with_otp
  rw [user_query_lower]

theorem verify_signup_otp_lower (db : DB) (e : Email) (c : String) (now : Nat)
    (tok : String) :
    verify_signup_otp db (lowerEmail e) c now tok = verify_signup_otp db e c now tok := by
  unfold verify_signup_otp
  rw [user_query_lower]

theorem send_authentication_otp_lower (db : DB) (e : Email) (now : Nat) (c : String)
    (ok : Bool) :
    send_authentication_otp db (lowerEmail e) now c ok = send_authentication_otp db e now c ok := by
  unfold send_authentication_otp
  rw [user_query_lower]

theorem send_password_reset_otp_lower (db : DB) (e : Email) (now : Nat) (c : String)
    (ok : Bool) :
    send_password_reset_otp db (lowerEmail e) now c ok = send_password_reset_otp db e now c ok := by
  unfold send_password_reset_otp
  rw [user_query_lower]

theorem send_login_otp_lower (db : DB) (e : Email) (now : Nat) (c : String) (ok : Bool) :
    send_login_otp db (lowerEmail e) now c ok = send_login_otp db e now c ok := by
  unfold send_login_otp
  rw [user_query_lower]

/-! ## Claim C10 -/

/-- Claim C10 (confirmed): every auth operation that looks up an account —
complete_signup, authenticate_with_password, authenticate_with_otp,
verify_signup_otp, and the OTP issuance operations
send_authentication_otp, send_password_reset_otp, send_login_otp —
behaves identically on an email and on its lower-cased form: signup
stores the email lower-cased, every lookup filters on the lower-cased
input, and so f(email) = f(lowercase(email)) for each operation f, both
for the returned result and for the updated store. -/
theorem C10_email_case_insensitive (hash : String → String)
    (check : String → String → Bool) (db : DB) (d : SignupData)
    (pic : Option (Option String)) (now uid : Nat) (otp p tok c : String) (ok : Bool)
    (e : Email) :
    complete_signup hash db d pic now uid otp ok =
        complete_signup hash db { d with email := lowerEmail d.email } pic now uid otp ok
    ∧ authenticate_with_password check db e p now tok =
        authenticate_with_password check db (lowerEmail e) p now tok
    ∧ authenticate_with_otp db e c now tok = authenticate_with_otp db (lowerEmail e) c now tok
    ∧ verify_signup_otp db e c now tok = verify_signup_otp db (lowerEmail e) c now tok
    ∧ send_authentication_otp db e now c ok = send_authentication_otp db (lowerEmail e) now c ok
    ∧ send_password_reset_otp db e now c ok = send_password_reset_otp db (lowerEmail e) now c ok
    ∧ send_login_otp db e now c ok = send_login_otp db (lowerEmail e) now c ok :=
  ⟨(complete_signup_lower hash db d pic now uid otp ok).symm,
   (authenticate_with_password_lower check db e p now tok).symm,
   (authenticate_with_otp_lower db e c now tok).symm,
   (verify_signup_otp_lower db e c now tok).symm,
   (send_authentication_otp_lower db e now c ok).symm,
   (send_password_reset_otp_lower db e now c ok).symm,
   (send_login_otp_lower db e now c ok).symm⟩

/-! ## Claim C1 -/

/-- Claim C1 (amended): the attempt counter is never incremented by a
verification attempt — `authenticate_with_otp` and `verify_signup_otp`
leave the `attempts` field of every stored code unchanged, and any failed
attempt leaves the whole store unchanged, so a code never becomes
unusable through failed verifications; only expiry or being marked used
disable it.  (The original claim — one increment per attempt and
permanent lockout after `max_attempts` failures — is refuted by
`C1_counterexample`: neither operation calls
`OTPCode.increment_attempts`.) -/
theorem C1_attempts_never_incremented (db : DB) (email : Email) (code : String)
    (now : Nat) (tok : String) :
    ((authenticate_with_otp db email code now tok).2.otps.map OTPCode.attempts =
       db.otps.map OTPCode.attempts)
    ∧ ((authenticate_with_otp db email code now tok).1.success = false →
       (authenticate_with_otp db email code now tok).2 = db)
    ∧ ((verify_signup_otp db email code now tok).2.otps.map OTPCode.attempts =
       db.otps.map OTPCode.attempts)
    ∧ ((verify_signup_otp db email code now tok).1.success = false →
       (verify_signup_otp db email code now tok).2 = db) := by
  refine ⟨?_, ?_, ?_, ?_⟩
  · unfold authenticate_with_otp
    cases hu : db.users.find? (user_query email) with
    | none => rfl
    | some user =>
      dsimp only
      cases ho : db.otps.find? (otp_query user.id code "authentication") with
      | none => rfl
      | some otp =>
        dsimp only
        by_cases hv : otp.is_valid now = false
        · simp [hv]
        · rw [Bool.not_eq_false] at hv
          rw [hv, if_neg (show ¬(true = false) by decide)]
          dsimp only
          exact updateFirst_map _ (fun o => o.mark_as_used now) OTPCode.attempts (fun a => rfl) db.otps
  · intro h
    unfold authenticate_with_otp at h ⊢
    cases hu : db.users.find? (user_query email) with
    | none => rfl
    | some user =>
      rw [hu] at h
      dsimp only at h ⊢
      cases ho : db.otps.find? (otp_query user.id code "authentication") with
      | none => rfl
      | some otp =>
        rw [ho] at h
        dsimp only at h ⊢
        by_cases hv : otp.is_valid now = false
        · simp [hv]
        · rw [Bool.not_eq_false] at hv
          rw [hv, if_neg (show ¬(true = false) by decide)] at h
          simp at h
  · unfold verify_signup_otp
    cases hu : db.users.find? (user_query email) with
    | none => rfl
    | some user =>
      dsimp only
      cases ho : db.otps.find? (otp_query user.id code "signup") with
      | none => rfl
      | some otp =>
        dsimp only
        by_cases hv : otp.is_valid now = false
        · simp [hv]
        · rw [Bool.not_eq_false] at hv
          rw [hv, if_neg (show ¬(true = false) by decide)]
          dsimp only
          exact updateFirst_map _ (fun o => o.mark_as_used now) OTPCode.attempts (fun a => rfl) db.otps
  · intro h
    unfold verify_signup_otp at h ⊢
    cases hu : db.users.find? (user_query email) with
    | none => rfl
    | some user =>
      rw [hu] at h
      dsimp only at h ⊢
      cases ho : db.otps.find? (otp_query user.id code "signup") with
      | none => rfl
      | some otp =>
        rw [ho] at h
        dsimp only at h ⊢
        by_cases hv : otp.is_valid now = false
        · simp [hv]
        · rw [Bool.not_eq_false] at hv
          rw [hv, if_neg (show ¬(true = false) by decide)] at h
          simp at h

/-- Claim C1 counterexample: with a stored valid code `123456`
(`max_attempts = 3`, `attempts = 0`), a wrong-value attempt leaves the
store — and in particular the attempt counter — unchanged, and after
three failed verifications the correct value still succeeds, so the
counter is not incremented and the code is not locked out. -/
theorem C1_counterexample :
    ((authenticate_with_otp ex_db ex_email "999999" 0 "tok").2 = ex_db)
    ∧ ((authenticate_with_otp ex_db ex_email "999999" 0 "tok").2.otps.map OTPCode.attempts = [0])
    ∧ (ex_otp.max_attempts = 3)
    ∧ ((authenticate_with_otp
          (authenticate_with_otp
            (authenticate_with_otp
              (authenticate_with_otp ex_db ex_email "999999" 0 "tok").2
              ex_email "999999" 0 "tok").2
            ex_email "999999" 0 "tok").2
          ex_email "123456" 0 "tok").1.success = true) := by
  decide

/-- Claim C1 witness: the amended theorem evaluated on the concrete store
`ex_db` at a wrong presented value. -/
theorem C1_witness :
    ((authenticate_with_otp ex_db ex_email "999999" 0 "tok").2 = ex_db)
    ∧ ((verify_signup_otp ex_db ex_email "999999" 0 "tok").2.otps.map OTPCode.attempts = [0]) := by
  have h := C1_attempts_never_incremented ex_db ex_email "999999" 0 "tok"
  exact ⟨h.2.1 (by decide), h.2.2.1.trans (by decide)⟩

/-! ## Claim C2 -/

/-- Claim C2 (amended): OTP verification selects the stored code by the
presented value, not by recency — the lookup filters on
`(user, value, purpose)` with no ordering.  Verification succeeds exactly
when the first stored code with the presented value for that user and
purpose is valid (unexpired, unused, attempts below maximum); presenting
a value that matches no stored code fails with the invalid-code message.
In particular presenting the value of an older, still-valid code also
succeeds (the original "only the most recently issued code is accepted"
is refuted by `C2_counterexample`). -/
theorem C2_value_match_semantics (db : DB) (email : Email) (code : String)
    (now : Nat) (tok : String) (u : User)
    (hu : db.users.find? (user_query email) = some u) :
    (db.otps.find? (otp_query u.id code "authentication") = none →
       authenticate_with_otp db email code now tok =
         ({ success := false, message := "Invalid authentication code" }, db))
    ∧ (∀ o, db.otps.find? (otp_query u.id code "authentication") = some o →
       (authenticate_with_otp db email code now tok).1.success = o.is_valid now)
    ∧ (db.otps.find? (otp_query u.id code "signup") = none →
       verify_signup_otp db email code now tok =
         ({ success := false, message := "Invalid verification code" }, db))
    ∧ (∀ o, db.otps.find? (otp_query u.id code "signup") = some o →
       (verify_signup_otp db email code now tok).1.success = o.is_valid now) := by
  refine ⟨?_, ?_, ?_, ?_⟩
  · intro ho
    unfold authenticate_with_otp
    rw [hu]
    dsimp only
    rw [ho]
  · intro o ho
    unfold authenticate_with_otp
    rw [hu]
    dsimp only
    rw [ho]
    dsimp only
    by_cases hv : o.is_valid now = false
    · rw [hv, if_pos rfl]
    · rw [Bool.not_eq_false] at hv
      rw [hv, if_neg (show ¬(true = false) by decide)]
  · intro ho
    unfold verify_signup_otp
    rw [hu]
    dsimp only
    rw [ho]
  · intro o ho
    unfold verify_signup_otp
    rw [hu]
    dsimp only
    rw [ho]
    dsimp only
    by_cases hv : o.is_valid now = false
    · rw [hv, if_pos rfl]
    · rw [Bool.not_eq_false] at hv
      rw [hv, if_neg (show ¬(true = false) by decide)]

/-- Claim C2 counterexample: the store holds two unconsumed, unexpired
authentication codes for the account, `111111` issued at time 0 and
`222222` issued later at time 5; presenting the value of the older code
succeeds, although the claim requires any value other than that of the
most recently issued code to fail with the invalid-code error. -/
theorem C2_counterexample :
    (ex_otp_old.created_at < ex_otp_new.created_at)
    ∧ (ex_otp_new.is_used = false)
    ∧ (ex_otp_new.is_valid 6 = true)
    ∧ (ex_otp_old.is_valid 6 = true)
    ∧ (ex_db2.otps = [ex_otp_old, ex_otp_new])
    ∧ ((authenticate_with_otp ex_db2 ex_email "111111" 6 "tok").1.success = true) := by
  decide

/-- Claim C2 witness: the amended theorem evaluated on the two-code store
`ex_db2`, once with a value matching no code and once with the older
code's value. -/
theorem C2_witness :
    (authenticate_with_otp ex_db2 ex_email "999999" 6 "tok" =
       ({ success := false, message := "Invalid authentication code" }, ex_db2))
    ∧ ((authenticate_with_otp ex_db2 ex_email "111111" 6 "tok").1.success = true) := by
  have h1 := C2_value_match_semantics ex_db2 ex_email "999999" 6 "tok" ex_user (by decide)
  have h2 := C2_value_match_semantics ex_db2 ex_email "111111" 6 "tok" ex_user (by decide)
  exact ⟨h1.1 (by decide), (h2.2.1 ex_otp_old (by decide)).trans (by decide)⟩

/-! ## Claim C5 -/

/-- Claim C5 (amended): a verification attempt on a code whose expiry
timestamp has passed fails with the expired-code message and never
succeeds, but the expired code is NOT marked consumed — the store is
returned unchanged.  (The "marks it consumed" half of the original claim
is refuted by `C5_counterexample`.) -/
theorem C5_expired_rejected_not_consumed (db : DB) (email : Email) (code : String)
    (now : Nat) (tok : String) (u : User)
    (hu : db.users.find? (user_query email) = some u) :
    (∀ o, db.otps.find? (otp_query u.id code "authentication") = some o →
       o.is_expired now = true →
       authenticate_with_otp db email code now tok =
         ({ success := false, message := "Authentication code has expired or been used" }, db))
    ∧ (∀ o, db.otps.find? (otp_query u.id code "signup") = some o →
       o.is_expired now = true →
       verify_signup_otp db email code now tok =
         ({ success := false, message := "Verification code has expired or been used" }, db)) := by
  constructor
  · intro o ho hexp
    have hv : o.is_valid now = false := by simp [OTPCode.is_valid, hexp]
    unfold authenticate_with_otp
    rw [hu]
    dsimp only
    rw [ho]
    dsimp only
    rw [hv, if_pos rfl]
  · intro o ho hexp
    have hv : o.is_valid now = false := by simp [OTPCode.is_valid, hexp]
    unfold verify_signup_otp
    rw [hu]
    dsimp only
    rw [ho]
    dsimp only
    rw [hv, if_pos rfl]

/-- Claim C5 counterexample: a code that expired at time 5, presented
correctly at time 20 with zero prior attempts, is rejected — but its
`is_used` flag is still `false` afterwards, so the failed verification
does not mark the expired code as consumed. -/
theorem C5_counterexample :
    (ex_otp_expired.attempts = 0)
    ∧ (ex_otp_expired.is_expired 20 = true)
    ∧ ((authenticate_with_otp ex_db5 ex_email "123456" 20 "tok").1.success = false)
    ∧ ((authenticate_with_otp ex_db5 ex_email "123456" 20 "tok").2.otps.map OTPCode.is_used =
        [false]) := by
  decide

/-- Claim C5 witness: the amended theorem evaluated on the store with one
expired authentication code. -/
theorem C5_witness :
    authenticate_with_otp ex_db5 ex_email "123456" 20 "tok" =
      ({ success := false, message := "Authentication code has expired or been used" }, ex_db5) := by
  have h := C5_expired_rejected_not_consumed ex_db5 ex_email "123456" 20 "tok" ex_user (by decide)
  exact h.1 ex_otp_expired (by decide) (by decide)

/-! ## Claim C4 -/

def ex_session : UserSession := { user_id := 1, session_token := "tok1", expires_at := 100 }

def ex_db4 : DB := { users := [ex_user], sessions := [ex_session] }

def ex_session_expired : UserSession := { user_id := 1, session_token := "tok2", expires_at := 5 }

def ex_db4e : DB := { users := [ex_user], sessions := [ex_session_expired] }

/-- Claim C4 (confirmed): `verify_session` fails with the invalid-session
message when no active session matches the token; fails with the
session-expired message when the matching active session is past its
expiry, and in that case deactivates exactly that session; and otherwise
updates the session's `last_used` timestamp to the current time and
returns the associated account, so verifying the same valid token twice
succeeds both times. -/
theorem C4_verify_session_spec (db : DB) (token : String) (now now2 : Nat) :
    (db.sessions.find? (session_query token) = none →
       verify_session db token now = ({ valid := false, message := some "Invalid session token" }, db))
    ∧ (∀ s, db.sessions.find? (session_query token) = some s → s.is_expired now = true →
       ((verify_session db token now).1 = { valid := false, message := some "Session expired" })
       ∧ ∃ n, db.sessions.get? n = some s ∧
           (verify_session db token now).2.sessions =
             db.sessions.set n { s with is_active := false })
    ∧ (∀ s u, db.sessions.find? (session_query token) = some s → s.is_expired now = false →
       db.users.find? (fun v => v.id == s.user_id) = some u →
       ((verify_session db token now).1 = { valid := true, user_data := some u })
       ∧ (∃ n, db.sessions.get? n = some s ∧
           (verify_session db token now).2.sessions =
             db.sessions.set n { s with last_used := now })
       ∧ (({ s with last_used := now } : UserSession).is_expired now2 = false →
           (verify_session (verify_session db token now).2 token now2).1 =
             { valid := true, user_data := some u })) := by
  refine ⟨?_, ?_, ?_⟩
  · intro h
    unfold verify_session
    rw [h]
  · intro s hs hexp
    have hrun : verify_session db token now =
        ({ valid := false, message := some "Session expired" },
         { db with
            sessions :=
              updateFirst (session_query token)
                (fun t => { t with is_active := false }) db.sessions }) := by
      unfold verify_session
      rw [hs]
      dsimp only
      rw [hexp, if_pos rfl]
    refine ⟨by rw [hrun], ?_⟩
    obtain ⟨n, hget, hupd⟩ :=
      updateFirst_eq_set (session_query token) (fun t => { t with is_active := false }) db.sessions s hs
    refine ⟨n, hget, ?_⟩
    rw [hrun]
    dsimp only
    rw [hupd]
  · intro s u hs hexp hu
    have hrun : verify_session db token now =
        ({ valid := true, user_data := some u },
         { db with
            sessions :=
              updateFirst (session_query token)
                (fun t => { t with last_used := now }) db.sessions }) := by
      unfold verify_session
      rw [hs]
      dsimp only
      rw [hexp, if_neg (show ¬(false = true) by decide)]
      rw [hu]
    refine ⟨by rw [hrun], ?_, ?_⟩
    · obtain ⟨n, hget, hupd⟩ :=
        updateFirst_eq_set (session_query token) (fun t => { t with last_used := now }) db.sessions s hs
      refine ⟨n, hget, ?_⟩
      rw [hrun]
      dsimp only
      rw [hupd]
    · intro h2
      have hfind : (updateFirst (session_query token) (fun t => { t with last_used := now })
          db.sessions).find? (session_query token) = some { s with last_used := now } := by
        rw [find?_updateFirst (session_query token) (fun t => { t with last_used := now })
          (fun a => rfl) db.sessions, hs]
        rfl
      rw [hrun]
      unfold verify_session
      dsimp only
      rw [hfind]
      dsimp only
      rw [h2, if_neg (show ¬(false = true) by decide)]
      rw [hu]

/-- Claim C4 witness: the theorem evaluated on concrete stores — an
unknown token, an expired session, and a valid session verified twice in
a row. -/
theorem C4_witness :
    (verify_session ex_db4 "missing" 10 = ({ valid := false, message := some "Invalid session token" }, ex_db4))
    ∧ ((verify_session ex_db4e "tok2" 10).1 = { valid := false, message := some "Session expired" })
    ∧ ((verify_session ex_db4 "tok1" 10).1 = { valid := true, user_data := some ex_user })
    ∧ ((verify_session (verify_session ex_db4 "tok1" 10).2 "tok1" 20).1 =
        { valid := true, user_data := some ex_user }) := by
  have h1 := C4_verify_session_spec ex_db4 "missing" 10 10
  have h2 := C4_verify_session_spec ex_db4e "tok2" 10 10
  have h3 := C4_verify_session_spec ex_db4 "tok1" 10 20
  refine ⟨h1.1 (by decide), (h2.2.1 ex_session_expired (by decide) (by decide)).1, ?_, ?_⟩
  · exact (h3.2.2 ex_session ex_user (by decide) (by decide) (by decide)).1
  · exact (h3.2.2 ex_session ex_user (by decide) (by decide) (by decide)).2.2 (by decide)

/-! ## Claim C6 -/

def ex_db6 : DB := { users := [ex_user] }

def carol_email : Email := strCodes "carol@campus.edu"

def ex_user_unverified : User := { id := 3, email := carol_email, password_hash := "pw" }

def ex_db6c : DB := { users := [ex_user, ex_user_unverified] }

/-- Claim C6 (amended): password authentication returns the identical
failure result — same message `"Invalid email or password"`, store
unchanged — when no account has the email and when the account exists,
is VERIFIED, but the password hash does not match; for an existing
unverified account, however, it returns
`"Please verify your email before logging in"` regardless of the
presented password — a message distinguishable from the no-account
failure, so enumeration resistance holds only among verified accounts
(the unrestricted original claim is refuted by `C6_counterexample`).
It succeeds only when the account exists, is verified, and the password
check passes, and on success it appends a session with the minted token
and returns the account data plus the token. -/
theorem C6_password_auth_failure_semantics (check : String → String → Bool)
    (db : DB) (e1 e2 e3 e4 : Email) (p1 p2 p3 p4 : String) (now : Nat) (tok : String)
    (u2 u3 u4 : User)
    (h1 : db.users.find? (user_query e1) = none)
    (h2 : db.users.find? (user_query e2) = some u2)
    (h2v : u2.is_verified = true)
    (h2p : check u2.password_hash p2 = false)
    (h3 : db.users.find? (user_query e3) = some u3)
    (h3v : u3.is_verified = true)
    (h3p : check u3.password_hash p3 = true)
    (h4 : db.users.find? (user_query e4) = some u4)
    (h4v : u4.is_verified = false) :
    (authenticate_with_password check db e1 p1 now tok =
       ({ success := false, message := "Invalid email or password" }, db))
    ∧ (authenticate_with_password check db e2 p2 now tok =
       ({ success := false, message := "Invalid email or password" }, db))
    ∧ ((authenticate_with_password check db e1 p1 now tok).1 =
       (authenticate_with_password check db e2 p2 now tok).1)
    ∧ (authenticate_with_password check db e4 p4 now tok =
       ({ success := false, message := "Please verify your email before logging in" }, db))
    ∧ ((authenticate_with_password check db e3 p3 now tok).1 =
       { success := true, message := "Login successful",
         user_data := some { u3 with last_login := some now }, session_token := some tok })
    ∧ ((authenticate_with_password check db e3 p3 now tok).2.sessions =
       db.sessions ++
         [{ user_id := u3.id, session_token := tok,
            expires_at := now + session_minutes, last_used := now }])
    ∧ (∀ e p, (authenticate_with_password check db e p now tok).1.success = true →
       ∃ u, db.users.find? (user_query e) = some u ∧ u.is_verified = true ∧
         check u.password_hash p = true) := by
  have ha : authenticate_with_password check db e1 p1 now tok =
      ({ success := false, message := "Invalid email or password" }, db) := by
    unfold authenticate_with_password
    rw [h1]
  have hb : authenticate_with_password check db e2 p2 now tok =
      ({ success := false, message := "Invalid email or password" }, db) := by
    unfold authenticate_with_password
    rw [h2]
    dsimp only
    rw [h2v, if_neg (show ¬(true = false) by decide)]
    rw [h2p, if_pos rfl]
  have hc : authenticate_with_password check db e3 p3 now tok =
      ({ success := true, message := "Login successful",
         user_data := some { u3 with last_login := some now }, session_token := some tok },
       { db with
          users := updateFirst (user_query e3) (fun v => { v with last_login := some now }) db.users,
          sessions := db.sessions ++
            [{ user_id := u3.id, session_token := tok,
               expires_at := now + session_minutes, last_used := now }] }) := by
    unfold authenticate_with_password
    rw [h3]
    dsimp only
    rw [h3v, if_neg (show ¬(true = false) by decide)]
    rw [h3p, if_neg (show ¬(true = false) by decide)]
  have hd : authenticate_with_password check db e4 p4 now tok =
      ({ success := false, message := "Please verify your email before logging in" }, db) := by
    unfold authenticate_with_password
    rw [h4]
    dsimp only
    rw [h4v, if_pos rfl]
  refine ⟨ha, hb, by rw [ha, hb], hd, by rw [hc], by rw [hc], ?_⟩
  intro e p hsucc
  unfold authenticate_with_password at hsucc
  cases hfe : db.users.find? (user_query e) with
  | none =>
    rw [hfe] at hsucc
    simp at hsucc
  | some u =>
    rw [hfe] at hsucc
    dsimp only at hsucc
    by_cases hv : u.is_verified = false
    · rw [hv, if_pos rfl] at hsucc
      simp at hsucc
    · rw [Bool.not_eq_false] at hv
      rw [hv, if_neg (show ¬(true = false) by decide)] at hsucc
      by_cases hcp : check u.password_hash p = false
      · rw [hcp, if_pos rfl] at hsucc
        simp at hsucc
      · rw [Bool.not_eq_false] at hcp
        exact ⟨u, rfl, hv, hcp⟩

/-- Claim C6 counterexample: with string-equality as the hash check, a
store holding one unverified account (`carol@campus.edu`, hash `"pw"`)
answers a login for an absent email with
`"Invalid email or password"` but a login for the existing unverified
account with a non-matching password with
`"Please verify your email before logging in"` — the two runs are
distinguishable, refuting the claimed identical-message property. -/
theorem C6_counterexample :
    (({ users := [ex_user_unverified] } : DB).users.find? (user_query bob_email) = none)
    ∧ (ex_user_unverified.is_verified = false)
    ∧ ((fun h p => h == p) ex_user_unverified.password_hash "wrong" = false)
    ∧ ((authenticate_with_password (fun h p => h == p) { users := [ex_user_unverified] }
          bob_email "wrong" 0 "tok").1.message = "Invalid email or password")
    ∧ ((authenticate_with_password (fun h p => h == p) { users := [ex_user_unverified] }
          carol_email "wrong" 0 "tok").1.message = "Please verify your email before logging in")
    ∧ ("Please verify your email before logging in" ≠ "Invalid email or password") := by
  decide

/-- Claim C6 witness: the amended theorem evaluated with string-equality
as the hash check on a store with a verified and an unverified account —
an unknown email and a wrong password on the verified account produce
the identical failure, the unverified account produces the
verify-your-email failure, and the right password succeeds. -/
theorem C6_witness :
    (authenticate_with_password (fun h p => h == p) ex_db6c bob_email "x" 0 "tok" =
       ({ success := false, message := "Invalid email or password" }, ex_db6c))
    ∧ (authenticate_with_password (fun h p => h == p) ex_db6c ex_email "wrong" 0 "tok" =
       ({ success := false, message := "Invalid email or password" }, ex_db6c))
    ∧ (authenticate_with_password (fun h p => h == p) ex_db6c carol_email "anything" 0 "tok" =
       ({ success := false, message := "Please verify your email before logging in" }, ex_db6c))
    ∧ ((authenticate_with_password (fun h p => h == p) ex_db6c ex_email "pw" 0 "tok").1.success =
       true) := by
  have hh := C6_password_auth_failure_semantics (fun h p => h == p) ex_db6c
    bob_email ex_email ex_email carol_email "x" "wrong" "pw" "anything" 0 "tok"
    ex_user ex_user ex_user_unverified
    (by decide) (by decide) (by decide) (by decide) (by decide) (by decide) (by decide)
    (by decide) (by decide)
  exact ⟨hh.1, hh.2.1, hh.2.2.2.1, by rw [hh.2.2.2.2.1]⟩

/-! ## Claim C3 -/

/-- Claim C3 (code bug): the claim describes the intended logout —
deactivate the matching session, answer `InvalidSession` when none
matches — but the route calls `AuthService.logout_user`, which no source
file defines (`auth_service_methods` is the complete method list of the
class), so every logout request raises `AttributeError` and is answered
with the generic 500 `INTERNAL_ERROR` envelope, and no session is ever
deactivated: the store is returned unchanged. -/
theorem C3_logout_always_internal_error (db : DB) (token : String) :
    ((logout_route db token).1.status = 500)
    ∧ ((logout_route db token).1.error = some "INTERNAL_ERROR")
    ∧ ((logout_route db token).1.success = false)
    ∧ ((logout_route db token).2 = db)
    ∧ (auth_service_methods.contains "logout_user" = false) :=
  ⟨rfl, rfl, rfl, rfl, by decide⟩

/-! ## Claim C7 -/

/-- Claim C7 counterexample: a request that raises an unhandled exception
(the logout route, whose service call raises `AttributeError`) is
answered with a 500 envelope whose `details` field carries the
exception's message text — the internal detail is sent to the caller,
contradicting the claim that no internal detail is leaked. -/
theorem C7_counterexample :
    ((logout_route { users := [ex_user] } "tok1").1.status = 500)
    ∧ ((logout_route { users := [ex_user] } "tok1").1.details =
        some [("error", logout_user_error)]) := by
  decide

/-- Claim C7 (amended): an unhandled exception is turned into a 500
envelope with the fixed generic top-level message and the
`INTERNAL_ERROR` code, but when the exception's message text is
non-empty it is included in the `details` field of the response returned
to the caller; only an empty or absent message yields no `details`
(Python truthiness of `if error_message:` in helpers.py line 119). -/
theorem C7_internal_error_envelope (msg : String) (hmsg : msg ≠ "") :
    (create_internal_error_response (some msg) =
      { status := 500, success := false, message := "An internal server error occurred",
        error := some "INTERNAL_ERROR", details := some [("error", msg)] })
    ∧ (create_internal_error_response (some "") =
      { status := 500, success := false, message := "An internal server error occurred",
        error := some "INTERNAL_ERROR", details := none })
    ∧ (create_internal_error_response none =
      { status := 500, success := false, message := "An internal server error occurred",
        error := some "INTERNAL_ERROR", details := none }) := by
  refine ⟨?_, rfl, rfl⟩
  unfold create_internal_error_response
  dsimp only
  rw [if_neg hmsg]

/-- Claim C7 witness: the amended theorem evaluated at the non-empty
exception text `"boom"`. -/
theorem C7_witness :
    create_internal_error_response (some "boom") =
      { status := 500, success := false, message := "An internal server error occurred",
        error := some "INTERNAL_ERROR", details := some [("error", "boom")] } :=
  (C7_internal_error_envelope "boom" (by decide)).1

/-! ## Claim C8 -/

/-- Claim C8 (amended): for `send_authentication_otp`,
`send_password_reset_otp` and `complete_signup`, a failure of the email
dispatch does not change the outcome at all — the result is identical to
the dispatch-success run, the code is persisted and the operation
returns success.  For `send_login_otp`, however, a dispatch failure
makes the overall operation return the failure
`"Failed to send verification code"` (refuting the original claim, see
`C8_counterexample`) — although the generated code row is still
persisted, because the `get_db` context manager commits on normal exit
of the `with` block. -/
theorem C8_dispatch_failure_handling (hash : String → String) (db : DB) (d : SignupData)
    (pic : Option (Option String)) (now uid : Nat) (code : String) (e : Email) (u : User) :
    (send_authentication_otp db e now code false = send_authentication_otp db e now code true)
    ∧ (db.users.find? (user_query e) = some u →
       ((send_authentication_otp db e now code false).1.success = true)
       ∧ ((send_authentication_otp db e now code false).2.otps =
          db.otps ++
            [{ user_id := u.id, code := code, purpose := "authentication",
               expires_at := now + otp_expiry_minutes, created_at := now }]))
    ∧ (send_password_reset_otp db e now code false = send_password_reset_otp db e now code true)
    ∧ (db.users.find? (user_query e) = some u →
       ((send_password_reset_otp db e now code false).1.success = true)
       ∧ ((send_password_reset_otp db e now code false).2.otps =
          db.otps ++
            [{ user_id := u.id, code := code, purpose := "password_reset",
               expires_at := now + otp_expiry_minutes, created_at := now }]))
    ∧ (complete_signup hash db d pic now uid code false =
        complete_signup hash db d pic now uid code true)
    ∧ (db.users.find? (user_query e) = some u → u.is_active = true →
       ((send_login_otp db e now code false).1 =
          { success := false, message := "Failed to send verification code" })
       ∧ ((send_login_otp db e now code false).2.otps =
          db.otps ++
            [{ user_id := u.id, code := code, purpose := "login",
               expires_at := now + otp_expiry_minutes, created_at := now }])) := by
  refine ⟨rfl, ?_, rfl, ?_, rfl, ?_⟩
  · intro hu
    unfold send_authentication_otp
    rw [hu]
    exact ⟨rfl, rfl⟩
  · intro hu
    unfold send_password_reset_otp
    rw [hu]
    exact ⟨rfl, rfl⟩
  · intro hu hact
    unfold send_login_otp
    rw [hu]
    dsimp only
    rw [hact, if_neg (show ¬(true = false) by decide)]
    exact ⟨rfl, rfl⟩

/-- Claim C8 counterexample: on a store with one active account, a login
OTP issuance whose email dispatch fails returns failure — not success as
the claim requires — even though the code row is persisted. -/
theorem C8_counterexample :
    (ex_user.is_active = true)
    ∧ ((send_login_otp ex_db6 ex_email 0 "654321" false).1 =
        { success := false, message := "Failed to send verification code" })
    ∧ ((send_login_otp ex_db6 ex_email 0 "654321" false).2.otps.map OTPCode.code =
        ["654321"]) := by
  decide

/-- Claim C8 witness: the amended theorem evaluated on the one-account
store — authentication OTP issuance succeeds under dispatch failure,
login OTP issuance fails. -/
theorem C8_witness :
    ((send_authentication_otp ex_db6 ex_email 0 "111222" false).1.success = true)
    ∧ ((send_login_otp ex_db6 ex_email 0 "654321" false).1.success = false) := by
  have h := C8_dispatch_failure_handling (fun s => s) ex_db6
    { email := ex_email, password := "", first_name := "", last_name := "" }
    none 0 7 "111222" ex_email ex_user
  have h2 := C8_dispatch_failure_handling (fun s => s) ex_db6
    { email := ex_email, password := "", first_name := "", last_name := "" }
    none 0 7 "654321" ex_email ex_user
  exact ⟨(h.2.1 (by decide)).1, by rw [(h2.2.2.2.2.2 (by decide) (by decide)).1]⟩

/-! ## Claim C9 -/

def ex_user2 : User := { id := 2, email := bob_email }

def ex_event_full : Event := { id := 1, title := "Yoga", max_attendees := 1, attendees := [1] }

def ex_db9 : DB := { users := [ex_user, ex_user2], events := [ex_event_full] }

/-- Claim C9 (amended): `join_event` fails with `"Event is full"` whenever
the event's attendee count has reached `max_attendees` AND the user is
not already an attendee — the already-registered check runs first and
takes precedence (see `C9_counterexample`) — and fails with the
already-registered message whenever the user is already an attendee; in
both failure cases the store is unchanged, and starting from any state
in which every event satisfies `attendee_count ≤ max_attendees`,
`join_event` preserves that invariant. -/
theorem C9_join_event_guards_invariant (db : DB) (event_id uid : Nat) :
    (∀ ev u, db.events.find? (fun v => v.id == event_id && v.is_active) = some ev →
       db.users.find? (fun v => v.id == uid) = some u →
       ((ev.attendees.contains u.id = true →
          join_event db event_id uid =
            ({ success := false, message := "You are already registered for this event" }, db))
        ∧ (ev.attendees.contains u.id = false →
           ev.max_attendees ≤ ev.attendee_count →
           join_event db event_id uid = ({ success := false, message := "Event is full" }, db))))
    ∧ ((∀ v ∈ db.events, v.attendee_count ≤ v.max_attendees) →
       ∀ v ∈ (join_event db event_id uid).2.events, v.attendee_count ≤ v.max_attendees) := by
  constructor
  · intro ev u he hu
    constructor
    · intro hmem
      unfold join_event
      rw [he]
      dsimp only
      rw [hu]
      dsimp only
      rw [hmem, if_pos rfl]
    · intro hmem hfull
      unfold join_event
      rw [he]
      dsimp only
      rw [hu]
      dsimp only
      rw [hmem, if_neg (show ¬(false = true) by decide)]
      rw [decide_eq_true hfull, if_pos rfl]
  · intro hinv v hv
    unfold join_event at hv
    cases he : db.events.find? (fun w => w.id == event_id && w.is_active) with
    | none =>
      rw [he] at hv
      exact hinv v hv
    | some ev =>
      rw [he] at hv
      dsimp only at hv
      cases hu : db.users.find? (fun w => w.id == uid) with
      | none =>
        rw [hu] at hv
        exact hinv v hv
      | some u =>
        rw [hu] at hv
        dsimp only at hv
        by_cases hmem : ev.attendees.contains u.id = true
        · rw [hmem, if_pos rfl] at hv
          exact hinv v hv
        · rw [Bool.not_eq_true] at hmem
          rw [hmem, if_neg (show ¬(false = true) by decide)] at hv
          by_cases hfull : decide (ev.max_attendees ≤ ev.attendee_count) = true
          · rw [hfull, if_pos rfl] at hv
            exact hinv v hv
          · rw [Bool.not_eq_true] at hfull
            rw [hfull, if_neg (show ¬(false = true) by decide)] at hv
            dsimp only at hv
            obtain ⟨n, hget, hupd⟩ :=
              updateFirst_eq_set (fun w => w.id == event_id && w.is_active)
                (fun w => { w with attendees := w.attendees ++ [u.id] }) db.events ev he
            rw [hupd] at hv
            rcases List.mem_or_eq_of_mem_set hv with h | h
            · exact hinv v h
            · have hcap : ¬(ev.max_attendees ≤ ev.attendee_count) := of_decide_eq_false hfull
              have hevmem : ev ∈ db.events := List.get?_mem hget
              subst h
              simp only [Event.attendee_count, List.length_append, List.length_cons,
                List.length_nil]
              unfold Event.attendee_count at hcap
              omega

/-- Claim C9 counterexample: an active event at capacity
(`max_attendees = 1`, one attendee) joined again by that same attendee is
refused with the already-registered message, not with `"Event is full"`,
although the attendee count has reached `max_attendees`. -/
theorem C9_counterexample :
    (ex_event_full.attendee_count = ex_event_full.max_attendees)
    ∧ ((join_event ex_db9 1 1).1.message = "You are already registered for this event")
    ∧ ((join_event ex_db9 1 1).1.message ≠ "Event is full") := by
  decide

/-- Claim C9 witness: the amended theorem evaluated on the concrete full
event — re-joining attendee, full-event refusal for another user, and
invariant preservation. -/
theorem C9_witness :
    (join_event ex_db9 1 1 =
      ({ success := false, message := "You are already registered for this event" }, ex_db9))
    ∧ (join_event ex_db9 1 2 = ({ success := false, message := "Event is full" }, ex_db9))
    ∧ (∀ v ∈ (join_event ex_db9 1 1).2.events, v.attendee_count ≤ v.max_attendees) := by
  have h := C9_join_event_guards_invariant ex_db9 1 1
  have h2 := C9_join_event_guards_invariant ex_db9 1 2
  refine ⟨(h.1 ex_event_full ex_user (by decide) (by decide)).1 (by decide), ?_, ?_⟩
  · exact (h2.1 ex_event_full ex_user2 (by decide) (by decide)).2 (by decide) (by decide)
  · exact h.2 (by decide)

end CampusConnect
